import Mathlib

set_option maxHeartbeats 1000000

/-! Shallow embedding of the AxleWatch transmitter firmware
(src/AxleWatch-TX-main.cpp): the telemetry packet encoder
(`readAndTransmitData`), the EEPROM configuration store
(`saveSensorConfig` / `loadSensorConfig` / `validateUniqueConfig` /
`isDuplicateSensor`), touch identification (`findSensorByTouch`),
and the interactive setup sequence (`scanAndIdentifySensors`).
Temperatures are modelled as exact rationals where only comparisons
matter, and as integer tenths of a degree where the `%.1f` rendering
matters. -/

/-- Decimal digit characters of a natural number, accumulator style,
with explicit fuel (`n + 1` always suffices because the argument shrinks
by a factor of 10 at every step). Models `snprintf` with `%d`. -/
def natDigitsCore : Nat → Nat → List Char → List Char
  | 0, _, acc => acc
  | fuel + 1, n, acc =>
    if n < 10 then Char.ofNat (48 + n) :: acc
    else natDigitsCore fuel (n / 10) (Char.ofNat (48 + n % 10) :: acc)

/-- Decimal rendering of a natural number. -/
def natToStr (n : Nat) : String := ⟨natDigitsCore (n + 1) n []⟩

/-- Model of the C `abs` applied to a temperature difference. -/
def fabs (q : ℚ) : ℚ := if q < 0 then -q else q

/-- Rendering of a temperature held in integer tenths of a degree with
`%.1f`: optional sign, integer part, a dot, then exactly one digit. -/
def fmtTenths (t : Int) : String :=
  (if t < 0 then "-" else "")
    ++ natToStr (t.natAbs / 10) ++ "." ++ natToStr (t.natAbs % 10)

/-- `MAX_SENSOR_COUNT` from the firmware. -/
def MAX_SENSOR_COUNT : Nat := 10

/-- The LoRa packet built by `readAndTransmitData` (lines 694-711):
`TX<ID>:`, then `temps[i]` for `i = 1 .. activeSensorCount-1` each
rendered `%.1f` and followed by a comma, then `0.0,` for every
remaining index up to `MAX_SENSOR_COUNT - 1`, then the ambient value
`temps[0]` with no trailing comma. -/
def encodePacket (transmitterID : Nat) (activeSensorCount : Nat)
    (temps : Nat → Int) : String :=
  "TX" ++ natToStr transmitterID ++ ":"
    ++ String.join ((List.range' 1 (activeSensorCount - 1)).map
        (fun i => fmtTenths (temps i) ++ ","))
    ++ String.join ((List.range' activeSensorCount
        (MAX_SENSOR_COUNT - activeSensorCount)).map (fun _ => "0.0,"))
    ++ fmtTenths (temps 0)

/-- The packet body as a list of fields: positions `1 .. activeCount-1`
from the reading, zero placeholders for positions `activeCount .. 9`,
and the ambient value last. -/
def packetFields (activeSensorCount : Nat) (temps : Nat → Int) : List String :=
  (List.range' 1 (activeSensorCount - 1)).map (fun i => fmtTenths (temps i))
    ++ (List.range' activeSensorCount
        (MAX_SENSOR_COUNT - activeSensorCount)).map (fun _ => "0.0")
    ++ [fmtTenths (temps 0)]

/-- Comma-separated concatenation of a list of fields. -/
def commaSeparated : List String → String
  | [] => ""
  | [f] => f
  | f :: g :: rest => f ++ "," ++ commaSeparated (g :: rest)

/-- A decimal digit character. -/
def isDigitChar (c : Char) : Prop := 48 ≤ c.toNat ∧ c.toNat ≤ 57

instance (c : Char) : Decidable (isDigitChar c) := by
  unfold isDigitChar; infer_instance

/-- A numeric field rendered with exactly one fractional digit:
an optional minus sign, a nonempty block of digits, a dot, and exactly
one digit after the dot. -/
def oneFracDigit (s : String) : Prop :=
  ∃ (sign ds : List Char) (d : Char),
    s.data = sign ++ ds ++ ['.', d] ∧ (sign = [] ∨ sign = ['-'])
      ∧ ds ≠ [] ∧ (∀ c ∈ ds, isDigitChar c) ∧ isDigitChar d

theorem string_append_data (a b : String) : (a ++ b).data = a.data ++ b.data := rfl

theorem natDigitsCore_digits (fuel : Nat) :
    ∀ n acc, n < fuel → (∀ c ∈ acc, isDigitChar c) →
      ∀ c ∈ natDigitsCore fuel n acc, isDigitChar c := by
  induction fuel with
  | zero => intro n acc h; omega
  | succ fuel ih =>
    intro n acc _ hacc c hc
    by_cases h10 : n < 10
    · simp only [natDigitsCore, if_pos h10] at hc
      rcases List.mem_cons.mp hc with hc | hc
      · subst hc
        constructor
        · have : (Char.ofNat (48 + n)).toNat = 48 + n := by
            interval_cases n <;> decide
          omega
        · have : (Char.ofNat (48 + n)).toNat = 48 + n := by
            interval_cases n <;> decide
          omega
      · exact hacc c hc
    · simp only [natDigitsCore, if_neg h10] at hc
      refine ih (n / 10) _ (by omega) ?_ c hc
      intro c' hc'
      rcases List.mem_cons.mp hc' with hc' | hc'
      · subst hc'
        have hm : n % 10 < 10 := Nat.mod_lt _ (by omega)
        have : (Char.ofNat (48 + n % 10)).toNat = 48 + n % 10 := by
          generalize hd : n % 10 = d at *
          interval_cases d <;> decide
        constructor <;> omega
      · exact hacc c' hc'

theorem natDigitsCore_ne_nil (fuel n : Nat) (acc : List Char) (h : n < fuel) :
    natDigitsCore fuel n acc ≠ [] := by
  cases fuel with
  | zero => omega
  | succ fuel =>
    by_cases h10 : n < 10
    · simp [natDigitsCore, if_pos h10]
    · simp only [natDigitsCore, if_neg h10]
      -- the recursive call keeps a nonempty accumulator, hence is nonempty
      have : ∀ fu m (ac : List Char), ac ≠ [] → natDigitsCore fu m ac ≠ [] := by
        intro fu
        induction fu with
        | zero => intro m ac hac; simpa [natDigitsCore] using hac
        | succ fu ih =>
          intro m ac hac
          by_cases hm : m < 10
          · simp [natDigitsCore, if_pos hm]
          · simp only [natDigitsCore, if_neg hm]
            exact ih _ _ (by simp)
      exact this _ _ _ (by simp)

theorem natToStr_digits (n : Nat) : ∀ c ∈ (natToStr n).data, isDigitChar c := by
  intro c hc
  exact natDigitsCore_digits (n + 1) n [] (Nat.lt_succ_self n)
    (by intro c' hc'; simp at hc') c hc

theorem natToStr_ne_nil (n : Nat) : (natToStr n).data ≠ [] :=
  natDigitsCore_ne_nil (n + 1) n [] (Nat.lt_succ_self n)

theorem natToStr_lt_ten (n : Nat) (h : n < 10) :
    (natToStr n).data = [Char.ofNat (48 + n)] := by
  simp [natToStr, natDigitsCore, if_pos h]

/-- The `%.1f` rendering always has exactly one fractional digit. -/
theorem fmtTenths_oneFracDigit (t : Int) : oneFracDigit (fmtTenths t) := by
  refine ⟨(if t < 0 then "-" else "").data, (natToStr (t.natAbs / 10)).data,
    Char.ofNat (48 + t.natAbs % 10), ?_, ?_, natToStr_ne_nil _, natToStr_digits _, ?_⟩
  · show (fmtTenths t).data = _
    simp only [fmtTenths, string_append_data]
    rw [natToStr_lt_ten (t.natAbs % 10) (Nat.mod_lt _ (by omega))]
    simp
  · by_cases h : t < 0 <;> simp [h]
  · have hm : t.natAbs % 10 < 10 := Nat.mod_lt _ (by omega)
    have : (Char.ofNat (48 + t.natAbs % 10)).toNat = 48 + t.natAbs % 10 := by
      generalize hd : t.natAbs % 10 = d at *
      interval_cases d <;> decide
    constructor <;> omega

/-- The zero placeholder also has exactly one fractional digit. -/
theorem zero_placeholder_oneFracDigit : oneFracDigit "0.0" :=
  ⟨[], ['0'], '0', by decide, Or.inl rfl, by decide, by decide, by decide⟩

theorem string_empty_append (s : String) : "" ++ s = s := by
  apply congrArg String.mk
  show [] ++ s.data = s.data
  simp

theorem string_append_assoc (a b c : String) : a ++ b ++ c = a ++ (b ++ c) := by
  apply congrArg String.mk
  show (a.data ++ b.data) ++ c.data = a.data ++ (b.data ++ c.data)
  simp

theorem string_append_empty (s : String) : s ++ "" = s := by
  apply congrArg String.mk
  show s.data ++ [] = s.data
  simp

theorem string_foldl_append (l : List String) :
    ∀ s : String, l.foldl (· ++ ·) s = s ++ l.foldl (· ++ ·) "" := by
  induction l with
  | nil => intro s; simp [string_append_empty]
  | cons f rest ih =>
    intro s
    simp only [List.foldl_cons]
    rw [ih (s ++ f), ih ("" ++ f), string_empty_append, string_append_assoc]

theorem string_join_cons (f : String) (rest : List String) :
    String.join (f :: rest) = f ++ String.join rest := by
  simp only [String.join, List.foldl_cons]
  rw [string_foldl_append, string_empty_append]

theorem string_join_append (a b : List String) :
    String.join (a ++ b) = String.join a ++ String.join b := by
  induction a with
  | nil => simp [String.join, string_empty_append]
  | cons f rest ih =>
    rw [List.cons_append, string_join_cons, ih, string_join_cons,
      string_append_assoc]

/-- Appending comma-terminated fields before a final field is exactly
comma-separation of the whole field list. -/
theorem join_comma_eq_commaSeparated (L : List String) (last : String) :
    String.join (L.map (fun f => f ++ ",")) ++ last
      = commaSeparated (L ++ [last]) := by
  induction L with
  | nil => simp [String.join, commaSeparated, string_empty_append]
  | cons f rest ih =>
    cases rest with
    | nil =>
      show String.join [f ++ ","] ++ last = commaSeparated [f, last]
      rw [string_join_cons]
      show f ++ "," ++ String.join [] ++ last = f ++ "," ++ commaSeparated [last]
      rw [string_append_assoc]
      show f ++ "," ++ ("" ++ last) = _
      rw [string_empty_append]
      rfl
    | cons g rest' =>
      have h1 : String.join (((f :: g :: rest')).map (fun f => f ++ ","))
          = (f ++ ",") ++ String.join ((g :: rest').map (fun f => f ++ ",")) := by
        rw [List.map_cons, string_join_cons]
      rw [h1, string_append_assoc, ih]
      show _ = commaSeparated (f :: ((g :: rest') ++ [last]))
      rw [List.cons_append]
      show f ++ "," ++ commaSeparated (g :: rest' ++ [last])
          = f ++ "," ++ commaSeparated (g :: (rest' ++ [last]))
      rfl

/-- The encoder output is the `TX<id>:` prefix followed by the
comma-separated field list. -/
theorem encodePacket_eq_fields (id count : Nat) (temps : Nat → Int) :
    encodePacket id count temps
      = "TX" ++ natToStr id ++ ":" ++ commaSeparated (packetFields count temps) := by
  unfold encodePacket packetFields
  have hA : (List.range' 1 (count - 1)).map (fun i => fmtTenths (temps i) ++ ",")
      = ((List.range' 1 (count - 1)).map (fun i => fmtTenths (temps i))).map
          (fun s => s ++ ",") := by
    rw [List.map_map]; exact List.map_congr_left (fun a _ => rfl)
  have hZ : (List.range' count (MAX_SENSOR_COUNT - count)).map
        (fun _ => ("0.0," : String))
      = ((List.range' count (MAX_SENSOR_COUNT - count)).map
          (fun _ => ("0.0" : String))).map (fun s => s ++ ",") := by
    rw [List.map_map]; exact List.map_congr_left (fun a _ => rfl)
  rw [hA, hZ]
  simp only [string_append_assoc]
  have key : ∀ (A Z : List String) (last : String),
      String.join (A.map (fun s => s ++ ","))
          ++ (String.join (Z.map (fun s => s ++ ",")) ++ last)
        = commaSeparated (A ++ (Z ++ [last])) := by
    intro A Z last
    rw [← string_append_assoc, ← string_join_append, ← List.map_append,
      join_comma_eq_commaSeparated, List.append_assoc]
  rw [key, List.append_assoc]

/-- C1: for every activeCount in [1,10] and every reading, the encoded
packet is the `TX<id>:` prefix followed by exactly 10 comma-separated
fields; fields 1..activeCount-1 of the position span carry the reading's
values, every position field with index in [activeCount, 9] is the
literal zero placeholder "0.0", the ambient value is the last field, and
each field is rendered with exactly one fractional digit. -/
theorem C1_fixed_width_framing (id count : Nat) (temps : Nat → Int)
    (h1 : 1 ≤ count) (h2 : count ≤ 10) :
    encodePacket id count temps
        = "TX" ++ natToStr id ++ ":" ++ commaSeparated (packetFields count temps)
      ∧ (packetFields count temps).length = 10
      ∧ (∀ k, 1 ≤ k → k < count →
          (packetFields count temps)[k - 1]? = some (fmtTenths (temps k)))
      ∧ (∀ k, count ≤ k → k ≤ 9 → (packetFields count temps)[k - 1]? = some "0.0")
      ∧ (packetFields count temps)[9]? = some (fmtTenths (temps 0))
      ∧ ∀ f ∈ packetFields count temps, oneFracDigit f := by
  have hlA : ((List.range' 1 (count - 1)).map
      (fun i => fmtTenths (temps i))).length = count - 1 := by simp
  have hlZ : ((List.range' count (MAX_SENSOR_COUNT - count)).map
      (fun _ => ("0.0" : String))).length = 10 - count := by
    simp [MAX_SENSOR_COUNT]
  refine ⟨encodePacket_eq_fields id count temps, ?_, ?_, ?_, ?_, ?_⟩
  · simp only [packetFields, List.length_append, hlA, hlZ, List.length_singleton]
    omega
  · intro k hk1 hk2
    simp only [packetFields]
    rw [List.getElem?_append, if_pos (by rw [List.length_append, hlA, hlZ]; omega)]
    rw [List.getElem?_append, if_pos (by rw [hlA]; omega)]
    rw [List.getElem?_map, List.getElem?_range' 1 1 (show k - 1 < count - 1 by omega)]
    have : 1 + 1 * (k - 1) = k := by omega
    rw [this]
    rfl
  · intro k hk1 hk2
    simp only [packetFields]
    rw [List.getElem?_append, if_pos (by rw [List.length_append, hlA, hlZ]; omega)]
    rw [List.getElem?_append, if_neg (by rw [hlA]; omega)]
    rw [hlA, List.getElem?_map, List.getElem?_range' count 1
      (show k - 1 - (count - 1) < MAX_SENSOR_COUNT - count by
        simp only [MAX_SENSOR_COUNT]; omega)]
    rfl
  · simp only [packetFields]
    rw [List.getElem?_append, if_neg (by rw [List.length_append, hlA, hlZ]; omega)]
    rw [List.length_append, hlA, hlZ]
    have : 9 - (count - 1 + (10 - count)) = 0 := by omega
    rw [this]
    rfl
  · intro f hf
    simp only [packetFields, List.mem_append, List.mem_map,
      List.mem_singleton] at hf
    rcases hf with (⟨i, _, rfl⟩ | ⟨i, _, rfl⟩) | rfl
    · exact fmtTenths_oneFracDigit _
    · exact zero_placeholder_oneFracDigit
    · exact fmtTenths_oneFracDigit _

/-- The reading of the end-to-end encode example: ambient 25.1 in slot 0,
12.3 in slot 1, 18.0 in slot 2, in tenths of a degree. -/
def exampleTemps : Nat → Int :=
  fun i => if i = 0 then 251 else if i = 1 then 123 else if i = 2 then 180 else 0

/-- Witness for C1 at transmitter id 7, activeCount 3 and the example
reading. -/
theorem C1_fixed_width_framing_witness :
    encodePacket 7 3 exampleTemps
        = "TX" ++ natToStr 7 ++ ":" ++ commaSeparated (packetFields 3 exampleTemps)
      ∧ (packetFields 3 exampleTemps).length = 10
      ∧ (∀ k, 1 ≤ k → k < 3 →
          (packetFields 3 exampleTemps)[k - 1]? = some (fmtTenths (exampleTemps k)))
      ∧ (∀ k, 3 ≤ k → k ≤ 9 → (packetFields 3 exampleTemps)[k - 1]? = some "0.0")
      ∧ (packetFields 3 exampleTemps)[9]? = some (fmtTenths (exampleTemps 0))
      ∧ ∀ f ∈ packetFields 3 exampleTemps, oneFracDigit f :=
  C1_fixed_width_framing 7 3 exampleTemps (by decide) (by decide)

/-- C2: with activeCount 3, the example reading (ambient 25.1, slot 1 =
12.3, slot 2 = 18.0) and transmitter id 7, the encoder produces exactly
the string `TX7:12.3,18.0,0.0,0.0,0.0,0.0,0.0,0.0,0.0,25.1`. -/
theorem C2_encode_example :
    encodePacket 7 3 exampleTemps
      = "TX7:12.3,18.0,0.0,0.0,0.0,0.0,0.0,0.0,0.0,25.1" := by
  decide

/-- A DS18B20 device address: 8 bytes, compared byte for byte
(`memcmp(a, b, 8) == 0`). -/
def DeviceAddress : Type := Fin 8 → Fin 256

instance : DecidableEq DeviceAddress := by
  unfold DeviceAddress; infer_instance

/-- The all-zero address: the content of the zero-initialized global
slot table at boot. -/
def zeroAddress : DeviceAddress := fun _ => 0

/-- The global `SensorConfig` struct: a table of 10 slot addresses. -/
structure SensorConfig where
  sensors : Fin 10 → DeviceAddress

instance : DecidableEq SensorConfig := by
  rintro ⟨a⟩ ⟨b⟩
  by_cases h : a = b
  · exact Decidable.isTrue (by rw [h])
  · exact Decidable.isFalse (by intro hc; cases hc; exact h rfl)

/-- The firmware globals relevant to the configuration store: the slot
table, `activeSensorCount`, and the `sensorsConfigured` flag. -/
structure DeviceState where
  sensorConfig : SensorConfig
  activeSensorCount : Nat
  sensorsConfigured : Bool

/-- The EEPROM region handled by `saveSensorConfig`/`loadSensorConfig`:
the magic marker (offset 0), the raw slot table (offset 4), and the
active count byte (offset 84). -/
structure EEPROMState where
  magic : Nat
  sensorData : Fin 10 → DeviceAddress
  sensorCount : Nat

/-- `EEPROM_MAGIC`. -/
def EEPROM_MAGIC : Nat := 0xABCD

/-- Array access `sensorConfig.sensors[i]`. Every use in the firmware
has `i < 10`; the backstop value is never reached in the modelled
paths. -/
def getSensor (cfg : SensorConfig) (i : Nat) : DeviceAddress :=
  if h : i < 10 then cfg.sensors ⟨i, h⟩ else zeroAddress

/-- `validateUniqueConfig` (lines 594-604): nested loops over pairs
`i < j` below `activeSensorCount`; false iff some pair of slots holds
equal addresses. -/
def validateUniqueConfig (st : DeviceState) : Bool :=
  (List.range st.activeSensorCount).all fun i =>
    (List.range st.activeSensorCount).all fun j =>
      if i < j then
        !(decide (getSensor st.sensorConfig i = getSensor st.sensorConfig j))
      else true

/-- `isDuplicateSensor` (lines 582-589): true iff `newAddr` equals some
slot address with index below both `excludeIndex` and
`activeSensorCount`. -/
def isDuplicateSensor (st : DeviceState) (newAddr : DeviceAddress)
    (excludeIndex : Nat) : Bool :=
  (List.range (min excludeIndex st.activeSensorCount)).any fun i =>
    decide (newAddr = getSensor st.sensorConfig i)

/-- `saveSensorConfig` (lines 609-624): writes the magic marker, the
raw slot table and the active count, overwriting the previous record
(the metadata region at other offsets is untouched). -/
def saveSensorConfig (st : DeviceState) : EEPROMState :=
  { magic := EEPROM_MAGIC
    sensorData := st.sensorConfig.sensors
    sensorCount := st.activeSensorCount }

/-- The distinct observable conditions reported by `loadSensorConfig`
(distinct serial messages and LED feedback in the firmware). -/
inductive LoadStatus
  | noMagic
  | invalidCount
  | duplicateConfig
  | ok
  deriving DecidableEq

/-- `loadSensorConfig` (lines 629-671): on magic match, copies the slot
table and count into the globals; an out-of-range count resets the count
to 1 and clears the configured flag; a duplicate among the loaded slots
clears the configured flag (keeping the loaded count); otherwise marks
the device configured.  On magic mismatch the globals keep their prior
values and the configured flag is cleared. -/
def loadSensorConfig (e : EEPROMState) (st : DeviceState) :
    DeviceState × LoadStatus :=
  if e.magic = EEPROM_MAGIC then
    let st1 : DeviceState :=
      { st with sensorConfig := ⟨e.sensorData⟩, activeSensorCount := e.sensorCount }
    if st1.activeSensorCount < 1 ∨ st1.activeSensorCount > MAX_SENSOR_COUNT then
      ({ st1 with activeSensorCount := 1, sensorsConfigured := false },
        LoadStatus.invalidCount)
    else if !(validateUniqueConfig st1) then
      ({ st1 with sensorsConfigured := false }, LoadStatus.duplicateConfig)
    else
      ({ st1 with sensorsConfigured := true }, LoadStatus.ok)
  else
    ({ st with sensorsConfigured := false }, LoadStatus.noMagic)

/-- The configuration globals at boot: zeroed slot table,
`activeSensorCount = 1`, `sensorsConfigured = false`. -/
def initialDeviceState : DeviceState :=
  { sensorConfig := ⟨fun _ => zeroAddress⟩
    activeSensorCount := 1
    sensorsConfigured := false }

/-- Bounded pairwise distinctness of the first `count` slots. -/
def uniqueFirst (cfg : SensorConfig) (count : Nat) : Prop :=
  ∀ i j : Fin 10, i.val < j.val → j.val < count → cfg.sensors i ≠ cfg.sensors j

instance (cfg : SensorConfig) (count : Nat) : Decidable (uniqueFirst cfg count) := by
  unfold uniqueFirst; infer_instance

theorem validateUniqueConfig_eq_true (st : DeviceState) :
    validateUniqueConfig st = true ↔
      ∀ i j : Nat, i < j → j < st.activeSensorCount →
        getSensor st.sensorConfig i ≠ getSensor st.sensorConfig j := by
  unfold validateUniqueConfig
  rw [List.all_eq_true]
  constructor
  · intro h i j hij hj
    have h1 := h i (List.mem_range.mpr (Nat.lt_trans hij hj))
    rw [List.all_eq_true] at h1
    have h2 := h1 j (List.mem_range.mpr hj)
    rw [if_pos hij] at h2
    simpa using h2
  · intro h i hi
    rw [List.all_eq_true]
    intro j hj
    by_cases hij : i < j
    · rw [if_pos hij]
      simpa using h i j hij (List.mem_range.mp hj)
    · rw [if_neg hij]

theorem uniqueFirst_iff (st : DeviceState) (hle : st.activeSensorCount ≤ 10) :
    uniqueFirst st.sensorConfig st.activeSensorCount ↔
      ∀ i j : Nat, i < j → j < st.activeSensorCount →
        getSensor st.sensorConfig i ≠ getSensor st.sensorConfig j := by
  constructor
  · intro h i j hij hj
    have hi10 : i < 10 := by omega
    have hj10 : j < 10 := by omega
    have := h ⟨i, hi10⟩ ⟨j, hj10⟩ hij hj
    simpa [getSensor, hi10, hj10] using this
  · intro h i j hij hj
    have := h i.val j.val hij hj
    simpa [getSensor, i.isLt, j.isLt] using this

theorem isDuplicateSensor_eq_true (st : DeviceState) (newAddr : DeviceAddress)
    (k : Nat) :
    isDuplicateSensor st newAddr k = true ↔
      ∃ i, i < k ∧ i < st.activeSensorCount
        ∧ newAddr = getSensor st.sensorConfig i := by
  unfold isDuplicateSensor
  rw [List.any_eq_true]
  constructor
  · rintro ⟨i, hi, hdec⟩
    have hi' := List.mem_range.mp hi
    exact ⟨i, by omega, by omega, of_decide_eq_true hdec⟩
  · rintro ⟨i, h1, h2, h3⟩
    exact ⟨i, List.mem_range.mpr (by omega), decide_eq_true h3⟩

/-- C3: for every configuration with `activeCount` in [1,10] and
pairwise-distinct slot addresses among the first `activeCount` slots,
saving to EEPROM and loading again yields exactly the same slot table
and the same `activeCount`, and reports the device as configured. -/
theorem C3_persistence_round_trip (st st' : DeviceState)
    (h1 : 1 ≤ st.activeSensorCount) (h2 : st.activeSensorCount ≤ 10)
    (huniq : uniqueFirst st.sensorConfig st.activeSensorCount) :
    (loadSensorConfig (saveSensorConfig st) st').1.sensorConfig = st.sensorConfig
      ∧ (loadSensorConfig (saveSensorConfig st) st').1.activeSensorCount
          = st.activeSensorCount
      ∧ (loadSensorConfig (saveSensorConfig st) st').1.sensorsConfigured = true
      ∧ (loadSensorConfig (saveSensorConfig st) st').2 = LoadStatus.ok := by
  have hmagic : (saveSensorConfig st).magic = EEPROM_MAGIC := rfl
  unfold loadSensorConfig
  rw [if_pos hmagic]
  set st1 : DeviceState :=
    { st' with sensorConfig := ⟨(saveSensorConfig st).sensorData⟩,
               activeSensorCount := (saveSensorConfig st).sensorCount } with hst1
  have hcfg : st1.sensorConfig = st.sensorConfig := rfl
  have hcount : st1.activeSensorCount = st.activeSensorCount := rfl
  have hval : validateUniqueConfig st1 = true := by
    rw [validateUniqueConfig_eq_true]
    rw [hcfg, hcount]
    exact (uniqueFirst_iff st h2).mp huniq
  rw [if_neg (by rw [hcount]; simp only [MAX_SENSOR_COUNT]; omega)]
  rw [hval]
  exact ⟨hcfg, hcount, rfl, rfl⟩

/-- A concrete configured state with two distinct slot addresses. -/
def exampleConfiguredState : DeviceState :=
  { sensorConfig := ⟨fun i => if i.val = 0 then (fun _ => 1)
      else if i.val = 1 then (fun _ => 2) else zeroAddress⟩
    activeSensorCount := 2
    sensorsConfigured := true }

/-- Witness for C3 at a concrete two-sensor configuration. -/
theorem C3_persistence_round_trip_witness :
    (loadSensorConfig (saveSensorConfig exampleConfiguredState)
        initialDeviceState).1.sensorConfig = exampleConfiguredState.sensorConfig
      ∧ (loadSensorConfig (saveSensorConfig exampleConfiguredState)
          initialDeviceState).1.activeSensorCount
          = exampleConfiguredState.activeSensorCount
      ∧ (loadSensorConfig (saveSensorConfig exampleConfiguredState)
          initialDeviceState).1.sensorsConfigured = true
      ∧ (loadSensorConfig (saveSensorConfig exampleConfiguredState)
          initialDeviceState).2 = LoadStatus.ok :=
  C3_persistence_round_trip exampleConfiguredState initialDeviceState
    (by decide) (by decide) (by decide)

/-- C4: a persisted record whose magic marker differs from the constant,
or whose count is 0 or above 10, loads at boot to the safe default
(`activeCount = 1`, device unconfigured) and does not report a
configured device. -/
theorem C4_untrusted_record_fallback (e : EEPROMState)
    (h : e.magic ≠ EEPROM_MAGIC ∨ e.sensorCount = 0 ∨ e.sensorCount > 10) :
    (loadSensorConfig e initialDeviceState).1.activeSensorCount = 1
      ∧ (loadSensorConfig e initialDeviceState).1.sensorsConfigured = false
      ∧ (loadSensorConfig e initialDeviceState).2 ≠ LoadStatus.ok := by
  unfold loadSensorConfig
  by_cases hm : e.magic = EEPROM_MAGIC
  · have hcount : e.sensorCount = 0 ∨ e.sensorCount > 10 := by
      rcases h with h | h | h
      · exact absurd hm h
      · exact Or.inl h
      · exact Or.inr h
    rw [if_pos hm, if_pos (by simp only [MAX_SENSOR_COUNT]; omega)]
    exact ⟨rfl, rfl, by intro hc; cases hc⟩
  · rw [if_neg hm]
    exact ⟨rfl, rfl, by intro hc; cases hc⟩

/-- A record with an altered magic marker. -/
def badMagicRecord : EEPROMState :=
  { magic := 0, sensorData := fun _ => zeroAddress, sensorCount := 5 }

/-- Witness for C4 at a record whose magic does not match. -/
theorem C4_untrusted_record_fallback_witness :
    (loadSensorConfig badMagicRecord initialDeviceState).1.activeSensorCount = 1
      ∧ (loadSensorConfig badMagicRecord initialDeviceState).1.sensorsConfigured
          = false
      ∧ (loadSensorConfig badMagicRecord initialDeviceState).2 ≠ LoadStatus.ok :=
  C4_untrusted_record_fallback badMagicRecord (by decide)

/-- A record whose magic matches and whose count is in range, but with
slots 0 and 1 holding the same address. -/
def corruptRecord : EEPROMState :=
  { magic := EEPROM_MAGIC, sensorData := fun _ => zeroAddress, sensorCount := 2 }

/-- C5 counterexample: for the duplicate-slot record, load does clear
the configured flag but keeps the loaded `activeCount` 2 in memory, so
it does not produce the safe-default configuration (whose activeCount
is 1). -/
theorem C5_counterexample :
    (loadSensorConfig corruptRecord initialDeviceState).1.sensorsConfigured = false
      ∧ (loadSensorConfig corruptRecord initialDeviceState).1.activeSensorCount = 2
      ∧ (loadSensorConfig corruptRecord initialDeviceState).1.activeSensorCount
          ≠ initialDeviceState.activeSensorCount := by
  decide

/-- C5 (amended): when the magic matches and the count is in [1,10] but
the first `activeCount` decoded slots are not pairwise distinct, load
falls back to the unconfigured flag while keeping the decoded count in
memory, and reports the duplicate-configuration condition, which is
distinct from the magic-mismatch condition. -/
theorem C5_duplicate_corrupt_fallback (e : EEPROMState) (st : DeviceState)
    (hm : e.magic = EEPROM_MAGIC)
    (h1 : 1 ≤ e.sensorCount) (h2 : e.sensorCount ≤ 10)
    (hdup : ∃ i j : Fin 10, i.val < j.val ∧ j.val < e.sensorCount
      ∧ e.sensorData i = e.sensorData j) :
    (loadSensorConfig e st).1.sensorsConfigured = false
      ∧ (loadSensorConfig e st).1.activeSensorCount = e.sensorCount
      ∧ (loadSensorConfig e st).2 = LoadStatus.duplicateConfig
      ∧ LoadStatus.duplicateConfig ≠ LoadStatus.noMagic := by
  unfold loadSensorConfig
  rw [if_pos hm]
  set st1 : DeviceState :=
    { st with sensorConfig := ⟨e.sensorData⟩,
              activeSensorCount := e.sensorCount } with hst1
  have hval : validateUniqueConfig st1 = false := by
    rw [← Bool.not_eq_true, validateUniqueConfig_eq_true]
    intro hall
    rcases hdup with ⟨i, j, hij, hj, heq⟩
    have hji : j.val < st1.activeSensorCount := hj
    have := hall i.val j.val hij hji
    apply this
    show getSensor ⟨e.sensorData⟩ i.val = getSensor ⟨e.sensorData⟩ j.val
    simp only [getSensor, dif_pos i.isLt, dif_pos j.isLt]
    simpa using heq
  rw [if_neg (by simp only [MAX_SENSOR_COUNT]; omega)]
  rw [hval]
  exact ⟨rfl, rfl, rfl, by intro hc; cases hc⟩

/-- Witness for the amended C5 at the concrete duplicate-slot record. -/
theorem C5_duplicate_corrupt_fallback_witness :
    (loadSensorConfig corruptRecord initialDeviceState).1.sensorsConfigured = false
      ∧ (loadSensorConfig corruptRecord
          initialDeviceState).1.activeSensorCount = corruptRecord.sensorCount
      ∧ (loadSensorConfig corruptRecord initialDeviceState).2
          = LoadStatus.duplicateConfig
      ∧ LoadStatus.duplicateConfig ≠ LoadStatus.noMagic :=
  C5_duplicate_corrupt_fallback corruptRecord initialDeviceState
    (by decide) (by decide) (by decide) (by decide)

/-- `TEMP_CHANGE_THRESHOLD` (1.5 °C). -/
def TEMP_CHANGE_THRESHOLD : ℚ := 3 / 2

/-- One sampling pass of `findSensorByTouch` (lines 559-571): scan the
candidates in enumeration order and return the first whose absolute
deviation from its baseline exceeds the threshold. -/
def findTouchInPass (baselines : Nat → ℚ) (pass : Nat → ℚ) (count : Nat) :
    Option Nat :=
  (List.range count).find? fun i =>
    decide (TEMP_CHANGE_THRESHOLD < fabs (pass i - baselines i))

/-- `findSensorByTouch` (lines 552-577), with its baseline side effect
made explicit: successive sampling passes within the 30-second budget
are given as a list; the result carries the identified index and its
reading (which the C code writes back into `baselines[i]`). An
exhausted list is the timeout (`return -1`). -/
def findSensorByTouchFull (baselines : Nat → ℚ) :
    List (Nat → ℚ) → Nat → Option (Nat × ℚ)
  | [], _ => none
  | p :: rest, count =>
    match findTouchInPass baselines p count with
    | some i => some (i, p i)
    | none => findSensorByTouchFull baselines rest count

/-- The index returned by `findSensorByTouch`. -/
def findSensorByTouch (baselines : Nat → ℚ) (passes : List (Nat → ℚ))
    (count : Nat) : Option Nat :=
  (findSensorByTouchFull baselines passes count).map Prod.fst

theorem find?_range'_first (f : Nat → Bool) :
    ∀ n s i, (List.range' s n).find? f = some i →
      s ≤ i ∧ i < s + n ∧ f i = true ∧ ∀ j, s ≤ j → j < i → f j = false := by
  intro n
  induction n with
  | zero => intro s i h; simp [List.range'] at h
  | succ n ih =>
    intro s i h
    rw [List.range'_succ] at h
    rcases Bool.eq_false_or_eq_true (f s) with hf | hf
    · rw [List.find?_cons_of_pos _ hf] at h
      cases h
      exact ⟨Nat.le_refl _, by omega, hf, by intro j h1 h2; omega⟩
    · rw [List.find?_cons_of_neg _ (by simp [hf])] at h
      obtain ⟨h1, h2, h3, h4⟩ := ih (s + 1) i h
      refine ⟨by omega, by omega, h3, ?_⟩
      intro j hj1 hj2
      rcases Nat.eq_or_lt_of_le hj1 with rfl | hj
      · exact hf
      · exact h4 j (by omega) hj2

theorem find?_range_first (f : Nat → Bool) (count i : Nat)
    (h : (List.range count).find? f = some i) :
    i < count ∧ f i = true ∧ ∀ j, j < i → f j = false := by
  rw [List.range_eq_range'] at h
  obtain ⟨_, h2, h3, h4⟩ := find?_range'_first f count 0 i h
  exact ⟨by omega, h3, fun j hj => h4 j (Nat.zero_le j) hj⟩

/-- C6: TouchIdentifier returns the index of the first candidate (in
enumeration order within the first hitting sampling pass) whose
absolute deviation from its baseline exceeds 1.5 units; with baselines
[20,20,20] and a pass where index 1 reads 22.0 while the others are
unchanged it returns 1; and if no candidate ever exceeds the threshold
within the budget it signals the timeout (`none`, C `-1`). -/
theorem C6_touch_identification :
    findSensorByTouch (fun _ => 20)
        [fun i => if i = 1 then 22 else 20] 3 = some 1
      ∧ (∀ (baselines : Nat → ℚ) (passes : List (Nat → ℚ)) (count : Nat),
          (∀ p ∈ passes, ∀ i, i < count →
            fabs (p i - baselines i) ≤ TEMP_CHANGE_THRESHOLD) →
          findSensorByTouch baselines passes count = none)
      ∧ (∀ (baselines : Nat → ℚ) (passes : List (Nat → ℚ)) (count i : Nat),
          findSensorByTouch baselines passes count = some i →
          i < count ∧ ∃ pre p post, passes = pre ++ p :: post
            ∧ (∀ q ∈ pre, findTouchInPass baselines q count = none)
            ∧ TEMP_CHANGE_THRESHOLD < fabs (p i - baselines i)
            ∧ ∀ j, j < i → fabs (p j - baselines j) ≤ TEMP_CHANGE_THRESHOLD) := by
  have hrange : List.range 3 = [0, 1, 2] := by decide
  have hexample : findSensorByTouch (fun _ => 20)
      [fun i => if i = 1 then 22 else 20] 3 = some 1 := by
    have hpass : findTouchInPass (fun _ => (20 : ℚ))
        (fun i => if i = 1 then 22 else 20) 3 = some 1 := by
      unfold findTouchInPass
      rw [hrange]
      rw [List.find?_cons_of_neg _ (by norm_num [fabs, TEMP_CHANGE_THRESHOLD])]
      rw [List.find?_cons_of_pos _ (by norm_num [fabs, TEMP_CHANGE_THRESHOLD])]
    show (findSensorByTouchFull (fun _ => 20)
        [fun i => if i = 1 then 22 else 20] 3).map Prod.fst = some 1
    simp only [findSensorByTouchFull]
    rw [hpass]
    rfl
  refine ⟨hexample, ?_, ?_⟩
  · intro baselines passes count h
    induction passes with
    | nil => rfl
    | cons p rest ih =>
      have hpass : findTouchInPass baselines p count = none := by
        unfold findTouchInPass
        rw [List.find?_eq_none]
        intro i hi
        simp only [decide_eq_true_eq, not_lt]
        exact h p (List.mem_cons_self p rest) i (List.mem_range.mp hi)
      show (findSensorByTouchFull baselines (p :: rest) count).map Prod.fst = none
      simp only [findSensorByTouchFull]
      rw [hpass]
      exact ih fun q hq i hi => h q (List.mem_cons_of_mem p hq) i hi
  · intro baselines passes count i h
    induction passes with
    | nil => simp [findSensorByTouch, findSensorByTouchFull] at h
    | cons p rest ih =>
      rcases hp : findTouchInPass baselines p count with _ | k
      · have h' : findSensorByTouch baselines rest count = some i := by
          show (findSensorByTouchFull baselines rest count).map Prod.fst = some i
          rw [← h]
          show _ = (findSensorByTouchFull baselines (p :: rest) count).map Prod.fst
          simp only [findSensorByTouchFull]
          rw [hp]
        obtain ⟨hic, pre, q, post, hsplit, hpre, hhit, hfirst⟩ := ih h'
        exact ⟨hic, p :: pre, q, post, by rw [hsplit]; rfl,
          by
            intro r hr
            rcases List.mem_cons.mp hr with rfl | hr
            · exact hp
            · exact hpre r hr,
          hhit, hfirst⟩
      · have hk : k = i := by
          have : findSensorByTouch baselines (p :: rest) count = some k := by
            show (findSensorByTouchFull baselines (p :: rest) count).map Prod.fst
              = some k
            simp only [findSensorByTouchFull]
            rw [hp]
            rfl
          rw [this] at h
          exact (Option.some_inj.mp h)
      
        subst hk
        unfold findTouchInPass at hp
        obtain ⟨hic, hhit, hfirst⟩ := find?_range_first _ count k hp
        refine ⟨hic, [], p, rest, rfl, by intro q hq; simp at hq, ?_, ?_⟩
        · exact of_decide_eq_true hhit
        · intro j hj
          have := hfirst j hj
          simpa [not_lt] using of_decide_eq_false this

/-- Witness for C6: the timeout branch at a concrete unchanged pass,
and the first-candidate branch at the example pass. -/
theorem C6_touch_identification_witness :
    findSensorByTouch (fun _ => (20 : ℚ)) [fun _ => (20 : ℚ)] 3 = none
      ∧ (1 < 3 ∧ ∃ pre p post,
          ([fun i => if i = 1 then (22 : ℚ) else 20] : List (Nat → ℚ))
              = pre ++ p :: post
            ∧ (∀ q ∈ pre, findTouchInPass (fun _ => 20) q 3 = none)
            ∧ TEMP_CHANGE_THRESHOLD < fabs (p 1 - 20)
            ∧ ∀ j, j < 1 → fabs (p j - 20) ≤ TEMP_CHANGE_THRESHOLD) :=
  ⟨C6_touch_identification.2.1 (fun _ => 20) [fun _ => 20] 3
      (by
        intro p hp i hi
        rcases List.mem_singleton.mp hp with rfl
        show fabs (20 - 20) ≤ TEMP_CHANGE_THRESHOLD
        norm_num [fabs, TEMP_CHANGE_THRESHOLD]),
    C6_touch_identification.2.2 (fun _ => 20)
      [fun i => if i = 1 then 22 else 20] 3 1 C6_touch_identification.1⟩

instance : DecidableEq DeviceState := by
  rintro ⟨c1, n1, b1⟩ ⟨c2, n2, b2⟩
  refine decidable_of_iff (c1 = c2 ∧ n1 = n2 ∧ b1 = b2) ?_
  constructor
  · rintro ⟨rfl, rfl, rfl⟩; rfl
  · intro h; cases h; exact ⟨rfl, rfl, rfl⟩

/-- Writing slot `p` of the slot table (`memcpy(sensorConfig.sensors[p],
addr, 8)`). -/
def setSlot (cfg : SensorConfig) (p : Nat) (a : DeviceAddress) : SensorConfig :=
  ⟨fun j => if j.val = p then a else cfg.sensors j⟩

/-- Pointwise update of the baseline array (`baselines[i] = currentTemp`). -/
def updateAt (f : Nat → ℚ) (n : Nat) (v : ℚ) : Nat → ℚ :=
  fun m => if m = n then v else f m

theorem getSensor_setSlot_same (cfg : SensorConfig) (p : Nat) (a : DeviceAddress)
    (h : p < 10) : getSensor (setSlot cfg p a) p = a := by
  simp [getSensor, setSlot, h]

theorem getSensor_setSlot_other (cfg : SensorConfig) (p j : Nat)
    (a : DeviceAddress) (h : j ≠ p) :
    getSensor (setSlot cfg p a) j = getSensor cfg j := by
  unfold getSensor setSlot
  by_cases hj : j < 10
  · rw [dif_pos hj, dif_pos hj]
    simp [h]
  · rw [dif_neg hj, dif_neg hj]

/-- Local state of the setup loop: the configuration globals, the
baseline array for the enumerated candidates, and the start time of the
current wait window (`waitStart`). -/
structure SetupLoopState where
  device : DeviceState
  baselines : Nat → ℚ
  waitStart : Nat

/-- Qualifying occurrences inside one position wait window: either a
scan observation of candidate `i` reading `temp` at time `now`, or a
5-second button hold.  The window elapsing with no event is the
exhausted script. -/
inductive PosEvent
  | sample (now : Nat) (i : Nat) (temp : ℚ)
  | buttonHold

/-- Outcome of the above-threshold touch handler. -/
inductive TouchOutcome
  | rejected
  | assignedSlot
  deriving DecidableEq

/-- Lines 458-497: handling of a candidate whose deviation exceeded the
threshold while waiting for position `pos`.  A duplicate of an earlier
slot is rejected: baseline refreshed, wait-window timer reset
(`waitStart = millis()`), no slot written.  Otherwise the address is
copied into slot `pos`, the baseline refreshed, and
`activeSensorCount` incremented. -/
def handlePositionTouch (devices : List DeviceAddress) (pos : Nat)
    (st : SetupLoopState) (now i : Nat) (current : ℚ) :
    SetupLoopState × TouchOutcome :=
  let addr := devices.getD i zeroAddress
  if isDuplicateSensor st.device addr pos = true then
    ({ st with baselines := updateAt st.baselines i current, waitStart := now },
      TouchOutcome.rejected)
  else
    ({ device := { st.device with
          sensorConfig := setSlot st.device.sensorConfig pos addr,
          activeSensorCount := st.device.activeSensorCount + 1 }
       baselines := updateAt st.baselines i current
       waitStart := st.waitStart },
      TouchOutcome.assignedSlot)

/-- How one position wait window ends. -/
inductive PosExit
  | assigned
  | savePressed
  | timedOut
  deriving DecidableEq

/-- One position wait window (lines 416-505): process the event script
until a slot is assigned, the save hold fires, or the window elapses
(exhausted script).  A sample below the threshold leaves the state
unchanged and waiting continues; a rejected duplicate also continues
waiting in the same state. -/
def runPosition (devices : List DeviceAddress) (pos : Nat) :
    SetupLoopState → List PosEvent → SetupLoopState × PosExit
  | st, [] => (st, PosExit.timedOut)
  | st, PosEvent.buttonHold :: _ => (st, PosExit.savePressed)
  | st, PosEvent.sample now i current :: rest =>
    if TEMP_CHANGE_THRESHOLD < fabs (current - st.baselines i) then
      match handlePositionTouch devices pos st now i current with
      | (st', TouchOutcome.rejected) => runPosition devices pos st' rest
      | (st', TouchOutcome.assignedSlot) => (st', PosExit.assigned)
    else
      runPosition devices pos st rest

/-- The position loop `for pos = 1 .. 9` (lines 405-522): each position
consumes one event script; a save press or a window timeout leaves the
loop, an assignment advances to the next position. -/
def runPositionsFrom (devices : List DeviceAddress) :
    Nat → SetupLoopState → List (List PosEvent) → SetupLoopState
  | _, st, [] => st
  | pos, st, sc :: rest =>
    if MAX_SENSOR_COUNT ≤ pos then st
    else
      match runPosition devices pos st sc with
      | (st', PosExit.assigned) => runPositionsFrom devices (pos + 1) st' rest
      | (st', PosExit.savePressed) => st'
      | (st', PosExit.timedOut) => st'

/-- How a whole setup attempt ends. -/
inductive ScanResult
  | noDevices
  | ambientTimeout
  | duplicateAtValidate
  | saved
  deriving DecidableEq

/-- The loop state on entry to the position loop, after the ambient
sensor was identified at candidate `idx` with reading `temp`
(lines 361-389): `activeSensorCount` was cleared to 0 and then set to 1,
slot 0 holds the identified candidate's address, and the candidate's
baseline was refreshed inside `findSensorByTouch`. -/
def setupEntryState (devices : List DeviceAddress) (baselines : Nat → ℚ)
    (st0 : DeviceState) (idx : Nat) (temp : ℚ) : SetupLoopState :=
  { device := { st0 with
      sensorConfig := setSlot st0.sensorConfig 0 (devices.getD idx zeroAddress)
      activeSensorCount := 1 }
    baselines := updateAt baselines idx temp
    waitStart := 0 }

/-- `scanAndIdentifySensors` (lines 328-547).  Zero enumerated devices
aborts immediately.  Otherwise `activeSensorCount` is cleared to 0 and
ambient identification runs with the given sampling passes; a timeout
aborts (leaving the cleared count).  On success the position loop runs,
then the configuration is validated: a duplicate aborts without saving,
otherwise the configuration is saved to EEPROM and the device is marked
configured. -/
def scanAndIdentifySensors (devices : List DeviceAddress)
    (baselines : Nat → ℚ) (ambientPasses : List (Nat → ℚ))
    (posScripts : List (List PosEvent)) (st0 : DeviceState) (e0 : EEPROMState) :
    DeviceState × EEPROMState × ScanResult :=
  if devices.length < 1 then (st0, e0, ScanResult.noDevices)
  else
    match findSensorByTouchFull baselines ambientPasses devices.length with
    | none => ({ st0 with activeSensorCount := 0 }, e0, ScanResult.ambientTimeout)
    | some (idx, temp) =>
      if validateUniqueConfig (runPositionsFrom devices 1
          (setupEntryState devices baselines st0 idx temp) posScripts).device then
        ({ (runPositionsFrom devices 1
              (setupEntryState devices baselines st0 idx temp) posScripts).device
            with sensorsConfigured := true },
          saveSensorConfig (runPositionsFrom devices 1
            (setupEntryState devices baselines st0 idx temp) posScripts).device,
          ScanResult.saved)
      else
        ((runPositionsFrom devices 1
            (setupEntryState devices baselines st0 idx temp) posScripts).device,
          e0, ScanResult.duplicateAtValidate)

/-- `TRANSMIT_INTERVAL_MS`. -/
def TRANSMIT_INTERVAL_MS : Nat := 30000

/-- The transmit condition of `loop()` (line 241):
`sensorsConfigured && (millis() - lastTransmitTime >= TRANSMIT_INTERVAL_MS)`. -/
def loopWillTransmit (st : DeviceState) (nowMs lastTransmitTime : Nat) : Bool :=
  st.sensorsConfigured && decide (TRANSMIT_INTERVAL_MS ≤ nowMs - lastTransmitTime)

/-- C7: while assigning position `pos`, a touch event whose address is
already held by an earlier slot in `[0, pos)` is rejected: the slot
table and `activeSensorCount` are unchanged, the touched candidate's
baseline is refreshed to the current reading, the wait-window timer is
reset to the event time, and the machine keeps waiting in the same
position state on the remaining events. -/
theorem C7_duplicate_rejection (devices : List DeviceAddress) (pos : Nat)
    (st : SetupLoopState) (now i : Nat) (current : ℚ) (rest : List PosEvent)
    (hcount : st.device.activeSensorCount = pos)
    (htouch : TEMP_CHANGE_THRESHOLD < fabs (current - st.baselines i))
    (hdup : ∃ j, j < pos
      ∧ getSensor st.device.sensorConfig j = devices.getD i zeroAddress) :
    (handlePositionTouch devices pos st now i current).2 = TouchOutcome.rejected
      ∧ (handlePositionTouch devices pos st now i current).1.device = st.device
      ∧ (handlePositionTouch devices pos st now i current).1.baselines
          = updateAt st.baselines i current
      ∧ (handlePositionTouch devices pos st now i current).1.waitStart = now
      ∧ runPosition devices pos st (PosEvent.sample now i current :: rest)
          = runPosition devices pos
              { st with baselines := updateAt st.baselines i current
                        waitStart := now } rest := by
  have hdupb : isDuplicateSensor st.device (devices.getD i zeroAddress) pos
      = true := by
    rw [isDuplicateSensor_eq_true]
    rcases hdup with ⟨j, hj, heq⟩
    exact ⟨j, hj, by omega, heq.symm⟩
  have hhandle : handlePositionTouch devices pos st now i current
      = ({ st with baselines := updateAt st.baselines i current
                   waitStart := now }, TouchOutcome.rejected) := by
    unfold handlePositionTouch
    rw [if_pos hdupb]
  refine ⟨by rw [hhandle], by rw [hhandle], by rw [hhandle], by rw [hhandle], ?_⟩
  show (if TEMP_CHANGE_THRESHOLD < fabs (current - st.baselines i) then
      match handlePositionTouch devices pos st now i current with
      | (st', TouchOutcome.rejected) => runPosition devices pos st' rest
      | (st', TouchOutcome.assignedSlot) => (st', PosExit.assigned)
    else runPosition devices pos st rest) = _
  rw [if_pos htouch, hhandle]

/-- Address constants used by the concrete setup scenarios. -/
def addrA : DeviceAddress := fun _ => 1

/-- A second, distinct address. -/
def addrB : DeviceAddress := fun _ => 2

/-- Loop state while waiting for position 1, with slot 0 already
holding `addrA`. -/
def exampleWaitState : SetupLoopState :=
  { device := { sensorConfig := ⟨fun j => if j.val = 0 then addrA else zeroAddress⟩
                activeSensorCount := 1
                sensorsConfigured := false }
    baselines := fun _ => 20
    waitStart := 0 }

/-- Witness for C7: while assigning position 1, re-touching the slot-0
sensor `addrA` (candidate 0 of `[addrA, addrB]`, reading 25 against
baseline 20) is rejected and waiting continues. -/
theorem C7_duplicate_rejection_witness :
    (handlePositionTouch [addrA, addrB] 1 exampleWaitState 5 0 25).2
        = TouchOutcome.rejected
      ∧ (handlePositionTouch [addrA, addrB] 1 exampleWaitState 5 0 25).1.device
        = exampleWaitState.device
      ∧ (handlePositionTouch [addrA, addrB] 1 exampleWaitState 5 0 25).1.baselines
        = updateAt exampleWaitState.baselines 0 25
      ∧ (handlePositionTouch [addrA, addrB] 1 exampleWaitState 5 0 25).1.waitStart
        = 5
      ∧ runPosition [addrA, addrB] 1 exampleWaitState
            (PosEvent.sample 5 0 25 :: [])
          = runPosition [addrA, addrB] 1
              { exampleWaitState with
                  baselines := updateAt exampleWaitState.baselines 0 25
                  waitStart := 5 } [] :=
  C7_duplicate_rejection [addrA, addrB] 1 exampleWaitState 5 0 25 []
    (by decide)
    (by show TEMP_CHANGE_THRESHOLD < fabs (25 - 20)
        norm_num [fabs, TEMP_CHANGE_THRESHOLD])
    ⟨0, by decide, by decide⟩

theorem handle_rejected (devices : List DeviceAddress) (pos : Nat)
    (st : SetupLoopState) (now i : Nat) (current : ℚ)
    (hd : isDuplicateSensor st.device (devices.getD i zeroAddress) pos = true) :
    handlePositionTouch devices pos st now i current
      = ({ st with baselines := updateAt st.baselines i current
                   waitStart := now }, TouchOutcome.rejected) := by
  unfold handlePositionTouch
  rw [if_pos hd]

theorem handle_assigned (devices : List DeviceAddress) (pos : Nat)
    (st : SetupLoopState) (now i : Nat) (current : ℚ)
    (hd : ¬ isDuplicateSensor st.device (devices.getD i zeroAddress) pos = true) :
    handlePositionTouch devices pos st now i current
      = ({ device := { st.device with
              sensorConfig := setSlot st.device.sensorConfig pos
                (devices.getD i zeroAddress)
              activeSensorCount := st.device.activeSensorCount + 1 }
           baselines := updateAt st.baselines i current
           waitStart := st.waitStart }, TouchOutcome.assignedSlot) := by
  unfold handlePositionTouch
  rw [if_neg hd]

theorem runPosition_count_slot (devices : List DeviceAddress) (pos : Nat)
    (hpos : pos ≠ 0) :
    ∀ (evs : List PosEvent) (st : SetupLoopState),
      ((runPosition devices pos st evs).1.device.activeSensorCount
          = st.device.activeSensorCount
            + (if (runPosition devices pos st evs).2 = PosExit.assigned
                then 1 else 0))
        ∧ getSensor (runPosition devices pos st evs).1.device.sensorConfig 0
            = getSensor st.device.sensorConfig 0
        ∧ (runPosition devices pos st evs).1.device.sensorsConfigured
            = st.device.sensorsConfigured := by
  intro evs
  induction evs with
  | nil =>
    intro st
    simp [runPosition]
  | cons ev rest ih =>
    intro st
    cases ev with
    | buttonHold =>
      simp [runPosition]
    | sample now i current =>
      by_cases ht : TEMP_CHANGE_THRESHOLD < fabs (current - st.baselines i)
      · by_cases hd : isDuplicateSensor st.device
            (devices.getD i zeroAddress) pos = true
        · have hstep : runPosition devices pos st (PosEvent.sample now i current :: rest)
              = runPosition devices pos
                  { st with baselines := updateAt st.baselines i current
                            waitStart := now } rest := by
            show (if TEMP_CHANGE_THRESHOLD < fabs (current - st.baselines i) then
                match handlePositionTouch devices pos st now i current with
                | (st', TouchOutcome.rejected) => runPosition devices pos st' rest
                | (st', TouchOutcome.assignedSlot) => (st', PosExit.assigned)
              else runPosition devices pos st rest) = _
            rw [if_pos ht, handle_rejected devices pos st now i current hd]
          rw [hstep]
          exact ih _
        · have hstep : runPosition devices pos st (PosEvent.sample now i current :: rest)
              = ({ device := { st.device with
                      sensorConfig := setSlot st.device.sensorConfig pos
                        (devices.getD i zeroAddress)
                      activeSensorCount := st.device.activeSensorCount + 1 }
                   baselines := updateAt st.baselines i current
                   waitStart := st.waitStart }, PosExit.assigned) := by
            show (if TEMP_CHANGE_THRESHOLD < fabs (current - st.baselines i) then
                match handlePositionTouch devices pos st now i current with
                | (st', TouchOutcome.rejected) => runPosition devices pos st' rest
                | (st', TouchOutcome.assignedSlot) => (st', PosExit.assigned)
              else runPosition devices pos st rest) = _
            rw [if_pos ht, handle_assigned devices pos st now i current hd]
          rw [hstep]
          refine ⟨by simp, ?_, rfl⟩
          exact getSensor_setSlot_other _ _ _ _ (Ne.symm hpos)
      · have hstep : runPosition devices pos st (PosEvent.sample now i current :: rest)
            = runPosition devices pos st rest := by
          show (if TEMP_CHANGE_THRESHOLD < fabs (current - st.baselines i) then
              match handlePositionTouch devices pos st now i current with
              | (st', TouchOutcome.rejected) => runPosition devices pos st' rest
              | (st', TouchOutcome.assignedSlot) => (st', PosExit.assigned)
            else runPosition devices pos st rest) = _
          rw [if_neg ht]
        rw [hstep]
        exact ih st

theorem runPositionsFrom_invariants (devices : List DeviceAddress) :
    ∀ (scripts : List (List PosEvent)) (pos : Nat) (st : SetupLoopState),
      st.device.activeSensorCount = pos → 1 ≤ pos → pos ≤ MAX_SENSOR_COUNT →
      (1 ≤ (runPositionsFrom devices pos st scripts).device.activeSensorCount
        ∧ (runPositionsFrom devices pos st scripts).device.activeSensorCount
            ≤ MAX_SENSOR_COUNT
        ∧ getSensor (runPositionsFrom devices pos st scripts).device.sensorConfig 0
            = getSensor st.device.sensorConfig 0
        ∧ (runPositionsFrom devices pos st scripts).device.sensorsConfigured
            = st.device.sensorsConfigured) := by
  intro scripts
  induction scripts with
  | nil =>
    intro pos st hc h1 h2
    simp only [runPositionsFrom]
    refine ⟨by omega, by omega, ?_, ?_⟩ <;> trivial
  | cons sc rest ih =>
    intro pos st hc h1 h2
    simp only [runPositionsFrom]
    by_cases hp : MAX_SENSOR_COUNT ≤ pos
    · rw [if_pos hp]
      refine ⟨by omega, by omega, ?_, ?_⟩ <;> trivial
    · rw [if_neg hp]
      obtain ⟨hcnt, hslot, hflag⟩ :=
        runPosition_count_slot devices pos (by omega) sc st
      rcases hrun : runPosition devices pos st sc with ⟨st', ex⟩
      rw [hrun] at hcnt hslot hflag
      cases ex with
      | assigned =>
        have hc' : st'.device.activeSensorCount = pos + 1 := by
          simp at hcnt; omega
        obtain ⟨a, b, c, d⟩ := ih (pos + 1) st' hc' (by omega)
          (by simp only [MAX_SENSOR_COUNT] at hp ⊢; omega)
        exact ⟨a, b, c.trans hslot, d.trans hflag⟩
      | savePressed =>
        have hc' : st'.device.activeSensorCount = pos := by
          simp at hcnt; omega
        exact ⟨show 1 ≤ st'.device.activeSensorCount by omega,
          show st'.device.activeSensorCount ≤ MAX_SENSOR_COUNT by omega,
          hslot, hflag⟩
      | timedOut =>
        have hc' : st'.device.activeSensorCount = pos := by
          simp at hcnt; omega
        exact ⟨show 1 ≤ st'.device.activeSensorCount by omega,
          show st'.device.activeSensorCount ≤ MAX_SENSOR_COUNT by omega,
          hslot, hflag⟩

theorem findSensorByTouchFull_lt (baselines : Nat → ℚ) :
    ∀ (passes : List (Nat → ℚ)) (count idx : Nat) (temp : ℚ),
      findSensorByTouchFull baselines passes count = some (idx, temp) →
        idx < count := by
  intro passes
  induction passes with
  | nil => intro count idx temp h; simp [findSensorByTouchFull] at h
  | cons p rest ih =>
    intro count idx temp h
    simp only [findSensorByTouchFull] at h
    rcases hp : findTouchInPass baselines p count with _ | k
    · rw [hp] at h
      exact ih count idx temp h
    · rw [hp] at h
      simp only [Option.some_inj, Prod.mk.injEq] at h
      obtain ⟨hk, -⟩ := h
      exact hk ▸ (find?_range_first _ count k hp).1

/-- C8: every configuration that reaches the saved state (is passed to
`saveSensorConfig` by the setup sequence) has `activeCount` in [1,10],
pairwise-distinct slot addresses among the first `activeCount` slots,
and slot 0 (ambient) assigned to one of the enumerated device
addresses; the persisted record is exactly the save of that
configuration. -/
theorem C8_saved_configuration_invariants (devices : List DeviceAddress)
    (baselines : Nat → ℚ) (ambientPasses : List (Nat → ℚ))
    (posScripts : List (List PosEvent)) (st0 : DeviceState) (e0 : EEPROMState)
    (hsaved : (scanAndIdentifySensors devices baselines ambientPasses posScripts
        st0 e0).2.2 = ScanResult.saved) :
    1 ≤ (scanAndIdentifySensors devices baselines ambientPasses posScripts
          st0 e0).1.activeSensorCount
      ∧ (scanAndIdentifySensors devices baselines ambientPasses posScripts
          st0 e0).1.activeSensorCount ≤ MAX_SENSOR_COUNT
      ∧ uniqueFirst (scanAndIdentifySensors devices baselines ambientPasses
          posScripts st0 e0).1.sensorConfig
          (scanAndIdentifySensors devices baselines ambientPasses posScripts
            st0 e0).1.activeSensorCount
      ∧ (∃ k, k < devices.length
          ∧ getSensor (scanAndIdentifySensors devices baselines ambientPasses
              posScripts st0 e0).1.sensorConfig 0 = devices.getD k zeroAddress)
      ∧ (scanAndIdentifySensors devices baselines ambientPasses posScripts
          st0 e0).1.sensorsConfigured = true
      ∧ (scanAndIdentifySensors devices baselines ambientPasses posScripts
          st0 e0).2.1 = saveSensorConfig (scanAndIdentifySensors devices
            baselines ambientPasses posScripts st0 e0).1 := by
  unfold scanAndIdentifySensors at hsaved ⊢
  by_cases hdev : devices.length < 1
  · rw [if_pos hdev] at hsaved
    exact ScanResult.noConfusion hsaved
  · rw [if_neg hdev] at hsaved ⊢
    rcases hfind : findSensorByTouchFull baselines ambientPasses devices.length
      with _ | ⟨idx, temp⟩
    · rw [hfind] at hsaved
      exact ScanResult.noConfusion hsaved
    · rw [hfind] at hsaved
      simp only [] at hsaved ⊢
      by_cases hval : validateUniqueConfig (runPositionsFrom devices 1
          (setupEntryState devices baselines st0 idx temp) posScripts).device
          = true
      · rw [if_pos hval] at hsaved ⊢
        obtain ⟨h1, h2, h3, -⟩ := runPositionsFrom_invariants devices posScripts
          1 (setupEntryState devices baselines st0 idx temp) rfl
          (Nat.le_refl 1) (by simp [MAX_SENSOR_COUNT])
        refine ⟨h1, h2, ?_, ?_, rfl, rfl⟩
        · exact (uniqueFirst_iff (runPositionsFrom devices 1
              (setupEntryState devices baselines st0 idx temp) posScripts).device
              (by simpa [MAX_SENSOR_COUNT] using h2)).mpr
            ((validateUniqueConfig_eq_true _).mp hval)
        · refine ⟨idx, findSensorByTouchFull_lt baselines ambientPasses
            devices.length idx temp hfind, ?_⟩
          exact h3.trans (getSensor_setSlot_same st0.sensorConfig 0
            (devices.getD idx zeroAddress) (by omega))
      · rw [if_neg hval] at hsaved
        exact ScanResult.noConfusion hsaved

/-- Witness for C8: one device, an ambient touch in the first pass, and
an immediately elapsing position window, ending in a save. -/
theorem C8_saved_configuration_invariants_witness :
    1 ≤ (scanAndIdentifySensors [addrA] (fun _ => 0) [fun _ => 100] []
          initialDeviceState badMagicRecord).1.activeSensorCount
      ∧ (scanAndIdentifySensors [addrA] (fun _ => 0) [fun _ => 100] []
          initialDeviceState badMagicRecord).1.activeSensorCount
          ≤ MAX_SENSOR_COUNT
      ∧ uniqueFirst (scanAndIdentifySensors [addrA] (fun _ => 0) [fun _ => 100]
          [] initialDeviceState badMagicRecord).1.sensorConfig
          (scanAndIdentifySensors [addrA] (fun _ => 0) [fun _ => 100] []
            initialDeviceState badMagicRecord).1.activeSensorCount
      ∧ (∃ k, k < ([addrA] : List DeviceAddress).length
          ∧ getSensor (scanAndIdentifySensors [addrA] (fun _ => 0)
              [fun _ => 100] [] initialDeviceState
              badMagicRecord).1.sensorConfig 0
            = ([addrA] : List DeviceAddress).getD k zeroAddress)
      ∧ (scanAndIdentifySensors [addrA] (fun _ => 0) [fun _ => 100] []
          initialDeviceState badMagicRecord).1.sensorsConfigured = true
      ∧ (scanAndIdentifySensors [addrA] (fun _ => 0) [fun _ => 100] []
          initialDeviceState badMagicRecord).2.1
          = saveSensorConfig (scanAndIdentifySensors [addrA] (fun _ => 0)
              [fun _ => 100] [] initialDeviceState badMagicRecord).1 :=
  C8_saved_configuration_invariants [addrA] (fun _ => 0) [fun _ => 100] []
    initialDeviceState badMagicRecord
    (by
      have hpass : findTouchInPass (fun _ => (0 : ℚ)) (fun _ => 100) 1
          = some 0 := by
        unfold findTouchInPass
        rw [show List.range 1 = [0] from by decide]
        rw [List.find?_cons_of_pos _ (by norm_num [fabs, TEMP_CHANGE_THRESHOLD])]
      have hfind : findSensorByTouchFull (fun _ => (0 : ℚ)) [fun _ => 100] 1
          = some (0, 100) := by
        simp only [findSensorByTouchFull]
        rw [hpass]
      unfold scanAndIdentifySensors
      rw [if_neg (by decide)]
      simp only [List.length_singleton]
      simp only [hfind]
      rw [if_pos (by decide)])

/-- C9 counterexample: with one enumerated device, a previously
configured in-memory state (activeCount 2, two distinct slots), and an
ambient wait window that elapses with no touch, the attempt aborts with
nothing saved — but the configuration state is NOT the same as before
the attempt: `activeSensorCount` was reset to 0. -/
theorem C9_counterexample :
    (scanAndIdentifySensors [addrA] (fun _ => 20) [] [] exampleConfiguredState
        badMagicRecord).2.2 = ScanResult.ambientTimeout
      ∧ (scanAndIdentifySensors [addrA] (fun _ => 20) [] []
          exampleConfiguredState badMagicRecord).2.1 = badMagicRecord
      ∧ (scanAndIdentifySensors [addrA] (fun _ => 20) [] []
          exampleConfiguredState badMagicRecord).1.activeSensorCount = 0
      ∧ exampleConfiguredState.activeSensorCount = 2
      ∧ (scanAndIdentifySensors [addrA] (fun _ => 20) [] []
          exampleConfiguredState badMagicRecord).1 ≠ exampleConfiguredState := by
  refine ⟨rfl, rfl, rfl, rfl, ?_⟩
  intro h
  exact absurd (congrArg DeviceState.activeSensorCount h) (by decide)

/-- C9 (amended): when a setup attempt aborts because zero devices were
enumerated or because ambient identification timed out, nothing is
saved to persistent storage (the EEPROM record is unchanged and the
result is not `saved`), no slot assignment is made, and the configured
flag keeps its prior value; the zero-device abort leaves the whole
state exactly as it was before the attempt, while the ambient-timeout
abort leaves the in-memory active count reset to 0. -/
theorem C9_abort_no_partial_save (devices : List DeviceAddress)
    (baselines : Nat → ℚ) (ambientPasses : List (Nat → ℚ))
    (posScripts : List (List PosEvent)) (st0 : DeviceState) (e0 : EEPROMState)
    (h : devices.length < 1
      ∨ findSensorByTouchFull baselines ambientPasses devices.length = none) :
    (scanAndIdentifySensors devices baselines ambientPasses posScripts
        st0 e0).2.1 = e0
      ∧ (scanAndIdentifySensors devices baselines ambientPasses posScripts
          st0 e0).2.2 ≠ ScanResult.saved
      ∧ (scanAndIdentifySensors devices baselines ambientPasses posScripts
          st0 e0).1.sensorConfig = st0.sensorConfig
      ∧ (scanAndIdentifySensors devices baselines ambientPasses posScripts
          st0 e0).1.sensorsConfigured = st0.sensorsConfigured
      ∧ (devices.length < 1 →
          (scanAndIdentifySensors devices baselines ambientPasses posScripts
            st0 e0).1 = st0)
      ∧ (1 ≤ devices.length →
          (scanAndIdentifySensors devices baselines ambientPasses posScripts
            st0 e0).1.activeSensorCount = 0) := by
  unfold scanAndIdentifySensors
  by_cases hdev : devices.length < 1
  · rw [if_pos hdev]
    exact ⟨rfl, fun hc => ScanResult.noConfusion hc, rfl, rfl,
      fun _ => rfl, fun hge => absurd hge (by omega)⟩
  · have hto : findSensorByTouchFull baselines ambientPasses devices.length
        = none := by
      rcases h with h | h
      · exact absurd h hdev
      · exact h
    rw [if_neg hdev]
    rw [hto]
    exact ⟨rfl, fun hc => ScanResult.noConfusion hc, rfl, rfl,
      fun hlt => absurd hlt hdev, fun _ => rfl⟩

/-- Witness for the amended C9, exercising both abort causes: a
zero-device run (state returned exactly unchanged) and an
ambient-timeout run on one device (count reset to 0, flag and slots
kept, record untouched). -/
theorem C9_abort_no_partial_save_witness :
    (scanAndIdentifySensors [] (fun _ => 20) [] [] exampleConfiguredState
        badMagicRecord).1 = exampleConfiguredState
      ∧ (scanAndIdentifySensors [] (fun _ => 20) [] [] exampleConfiguredState
          badMagicRecord).2.1 = badMagicRecord
      ∧ (scanAndIdentifySensors [] (fun _ => 20) [] [] exampleConfiguredState
          badMagicRecord).2.2 ≠ ScanResult.saved
      ∧ (scanAndIdentifySensors [addrA] (fun _ => 20) [] []
          exampleConfiguredState badMagicRecord).1.activeSensorCount = 0
      ∧ (scanAndIdentifySensors [addrA] (fun _ => 20) [] []
          exampleConfiguredState badMagicRecord).1.sensorsConfigured
          = exampleConfiguredState.sensorsConfigured
      ∧ (scanAndIdentifySensors [addrA] (fun _ => 20) [] []
          exampleConfiguredState badMagicRecord).1.sensorConfig
          = exampleConfiguredState.sensorConfig
      ∧ (scanAndIdentifySensors [addrA] (fun _ => 20) [] []
          exampleConfiguredState badMagicRecord).2.1 = badMagicRecord
      ∧ (scanAndIdentifySensors [addrA] (fun _ => 20) [] []
          exampleConfiguredState badMagicRecord).2.2 ≠ ScanResult.saved := by
  have hz := C9_abort_no_partial_save [] (fun _ => 20) [] []
    exampleConfiguredState badMagicRecord (Or.inl (by decide))
  have ht := C9_abort_no_partial_save [addrA] (fun _ => 20) [] []
    exampleConfiguredState badMagicRecord (Or.inr rfl)
  exact ⟨hz.2.2.2.2.1 (by decide), hz.1, hz.2.1,
    ht.2.2.2.2.2 (by decide), ht.2.2.2.1, ht.2.2.1, ht.1, ht.2.1⟩

/-- C10: when a setup attempt aborts after device enumeration succeeded
but ambient identification timed out, `sensorsConfigured` keeps the
value it had before the attempt while the in-memory
`activeSensorCount` has been reset to 0; consequently, on a device
that was configured before the attempt, the periodic transmit condition
still fires and the encoder runs with an active count of 0. -/
theorem C10_abort_zero_count_transmission (devices : List DeviceAddress)
    (baselines : Nat → ℚ) (ambientPasses : List (Nat → ℚ))
    (posScripts : List (List PosEvent)) (st0 : DeviceState) (e0 : EEPROMState)
    (hdev : 1 ≤ devices.length)
    (hto : findSensorByTouchFull baselines ambientPasses devices.length
      = none) :
    (scanAndIdentifySensors devices baselines ambientPasses posScripts
        st0 e0).2.2 = ScanResult.ambientTimeout
      ∧ (scanAndIdentifySensors devices baselines ambientPasses posScripts
          st0 e0).1.sensorsConfigured = st0.sensorsConfigured
      ∧ (scanAndIdentifySensors devices baselines ambientPasses posScripts
          st0 e0).1.activeSensorCount = 0
      ∧ (st0.sensorsConfigured = true →
          ∀ nowMs lastTransmitTime : Nat,
            TRANSMIT_INTERVAL_MS ≤ nowMs - lastTransmitTime →
            loopWillTransmit (scanAndIdentifySensors devices baselines
                ambientPasses posScripts st0 e0).1 nowMs lastTransmitTime = true
              ∧ ∀ (id : Nat) (temps : Nat → Int),
                  encodePacket id (scanAndIdentifySensors devices baselines
                    ambientPasses posScripts st0 e0).1.activeSensorCount temps
                    = encodePacket id 0 temps) := by
  unfold scanAndIdentifySensors
  rw [if_neg (by omega)]
  rw [hto]
  refine ⟨rfl, rfl, rfl, ?_⟩
  intro hconf nowMs lastT hgap
  constructor
  · simp [loopWillTransmit, hconf, hgap]
  · intro id temps
    rfl

/-- Witness for C10 at the concrete ambient-timeout run on a
previously configured device. -/
theorem C10_abort_zero_count_transmission_witness :
    (scanAndIdentifySensors [addrA] (fun _ => 20) [] [] exampleConfiguredState
        badMagicRecord).2.2 = ScanResult.ambientTimeout
      ∧ (scanAndIdentifySensors [addrA] (fun _ => 20) [] []
          exampleConfiguredState badMagicRecord).1.sensorsConfigured
          = exampleConfiguredState.sensorsConfigured
      ∧ (scanAndIdentifySensors [addrA] (fun _ => 20) [] []
          exampleConfiguredState badMagicRecord).1.activeSensorCount = 0
      ∧ (exampleConfiguredState.sensorsConfigured = true →
          ∀ nowMs lastTransmitTime : Nat,
            TRANSMIT_INTERVAL_MS ≤ nowMs - lastTransmitTime →
            loopWillTransmit (scanAndIdentifySensors [addrA] (fun _ => 20) [] []
                exampleConfiguredState badMagicRecord).1 nowMs lastTransmitTime
                = true
              ∧ ∀ (id : Nat) (temps : Nat → Int),
                  encodePacket id (scanAndIdentifySensors [addrA] (fun _ => 20)
                    [] [] exampleConfiguredState
                    badMagicRecord).1.activeSensorCount temps
                    = encodePacket id 0 temps) :=
  C10_abort_zero_count_transmission [addrA] (fun _ => 20) [] []
    exampleConfiguredState badMagicRecord (by decide) rfl
